import Mathlib

/-!
Shallow embedding of `etrade_report_analyzer.py` (normalizer, financial
computation engine, exchange-rate cache, grouped report formatter) together
with theorems settling the frozen claims about its specification.

Modelling conventions:
* Python floats carrying money amounts are modelled as rationals (`ℚ`); every
  arithmetic operation appearing in the source is a plain `+`, `-`, `*` on
  such values, which the embedding mirrors literally.
* Python `datetime`/`Timestamp` values are a `Date` record; pandas `NaT`
  (an unparsable date) is `Option.none`.
* Fallible code paths (`raise`, failed `assert`, attribute errors on `None`)
  are `Except PyError`.
* The HTTP client is an external collaborator; it is modelled as a function
  from the requested date and base currency to a `FetchResult` (either a
  non-success status, or a decoded JSON body carrying its own `date` field
  and an optional `rates` mapping, exactly the two fields the source reads).
-/

namespace ETrade

/-- Calendar date (the source obtains these from `pd.to_datetime` with format
month/day/year); an unparsable date becomes `none` (`NaT`) where used. -/
structure Date where
  year : Nat
  month : Nat
  day : Nat
deriving DecidableEq, Repr

/-- Zero-pad a number to two digits, as `strftime` does for `%m`, `%d`. -/
def pad2 (n : Nat) : String :=
  if n < 10 then "0" ++ toString n else toString n

/-- Zero-pad a number to four digits, as `strftime` does for `%Y`. -/
def pad4 (n : Nat) : String :=
  if n < 10 then "000" ++ toString n
  else if n < 100 then "00" ++ toString n
  else if n < 1000 then "0" ++ toString n
  else toString n

/-- `strftime("%Y-%m-%d")`, the key format used for rate lookups. -/
def fmtYMD (d : Date) : String :=
  pad4 d.year ++ "-" ++ pad2 d.month ++ "-" ++ pad2 d.day

/-- `strftime("%d.%m.%Y")`, the display format used by the report formatter. -/
def fmtDMY (d : Date) : String :=
  pad2 d.day ++ "." ++ pad2 d.month ++ "." ++ pad4 d.year

/-- Python exceptions that the embedded code can raise. -/
inductive PyError where
  /-- `KeyError` raised by the grouping loop, carrying entry index and key. -/
  | keyError (index : Nat) (key : String)
  /-- `AttributeError`, e.g. `None.get(...)` or `.year` on a non-date. -/
  | attrError
  /-- A failed `assert` statement. -/
  | assertionError
  /-- `ValueError`, e.g. `strftime` on `NaT`. -/
  | valueError
deriving DecidableEq, Repr

/-- A decoded `rates` mapping: currency code to rate. -/
abbrev RatesMap := List (String × ℚ)

/-- The decoded JSON body of a rate-service response, restricted to the two
fields the source reads: `api_return.get("date")` and
`api_return.get("rates")`.  `ratesField = none` models a body whose `rates`
entry is absent or not a mapping (both fail the source's `assert`). -/
structure ApiResponse where
  date : Option String
  ratesField : Option RatesMap
deriving DecidableEq, Repr

/-- Outcome of one HTTP fetch: a non-success status, or a decoded body. -/
inductive FetchResult where
  | failure
  | success (resp : ApiResponse)
deriving DecidableEq, Repr

/-- The external rate-fetch collaborator: requested date and base currency
to fetch outcome. -/
abbrev Fetcher := String → String → FetchResult

/-- The cache scan of `get_exchange_trade` (lines 21-24): walk `EXCHANGE_CACHE`
and keep the `rates` field of the last stored response whose own `date` field
equals the requested date string. -/
def cache_lookup (cache : List ApiResponse) (date : String) : Option RatesMap :=
  cache.foldl (fun acc e => if e.date = some date then e.ratesField else acc) none

/-- Value returned by `get_exchange_trade`: the whole rates mapping when no
target currency was requested, otherwise `rates.get(return_currency)`. -/
inductive GetRatesRet where
  | ratesDict (m : Option RatesMap)
  | rate (r : Option ℚ)
deriving DecidableEq, Repr

/-- `get_exchange_trade(date, base, return_currency)` (lines 16-34).
Returns the Python return value, the cache after the call (the source mutates
the module-level `EXCHANGE_CACHE`), and whether an HTTP fetch was issued.
On a cache miss it fetches; a 200 response must carry a `rates` mapping
(otherwise the `assert` fails) and the entire response is appended to the
cache.  When a (truthy) `return_currency` is requested while `rates` is still
`None`, the source evaluates `None.get(...)`, an `AttributeError`. -/
def get_exchange_trade (fetch : Fetcher) (cache : List ApiResponse)
    (date : String) (base : String) (return_currency : Option String) :
    Except PyError (GetRatesRet × List ApiResponse × Bool) :=
  let fetched : Except PyError (Option RatesMap × List ApiResponse × Bool) :=
    match cache_lookup cache date with
    | some m => .ok (some m, cache, false)
    | none =>
      match fetch date base with
      | .failure => .ok (none, cache, true)
      | .success resp =>
        match resp.ratesField with
        | none => .error .assertionError
        | some m => .ok (some m, cache ++ [resp], true)
  match fetched with
  | .error e => .error e
  | .ok (rates, c2, f) =>
    match return_currency with
    | none => .ok (.ratesDict rates, c2, f)
    | some c =>
      if c = "" then .ok (.ratesDict rates, c2, f)
      else
        match rates with
        | none => .error .attrError
        | some m => .ok (.rate (m.lookup c), c2, f)

/-- Canonical trade record, the dictionary built per row by `read_csv`
(lines 91-104).  All numeric fields are already coerced (absent becomes 0.0
upstream), so they are plain rationals here. -/
structure TradeRecord where
  OrderNumber : String
  SaleDate : Option Date
  OrderType : String
  PlanType : String
  SharesSold : ℚ
  AdjustedCostPerShare : ℚ
  GainLossPerShare : ℚ
  PurchasePrice : ℚ
  is_selltocover : Bool
deriving DecidableEq, Repr

/-- A converted gain: either a number or the `"n/a"` sentinel string. -/
inductive NumNA where
  | num (q : ℚ)
  | na
deriving DecidableEq, Repr

/-- The dictionary built per record by `parse_data` (lines 243-258).
`Typ` is the `"Type"` key, `Rabatt` the conditional `"Rabatt (inkl.)"` key
(present, with value `"15%"`, only for ESPP records). -/
structure LineItem where
  Order : String
  Verkaufsdatum : Option Date
  Typ : String
  PlanType : String
  Anz : ℚ
  Kaufwert : ℚ
  GewinnVerlust : ℚ
  Verkaufswert : ℚ
  Orderwert : ℚ
  KapitalertragUSD : ℚ
  KapitalertragEUR : NumNA
  is_selltocover : Bool
  Rabatt : Option String
deriving DecidableEq, Repr

/-- The pure per-record computation of `parse_data` (lines 216-258), given the
exchange rate the lookup produced (`none` when conversion is off or the rate
is absent).  `if exchange_rate:` in the source is Python truthiness, so a rate
equal to 0 falls back to `"n/a"` exactly like an absent one. -/
def mk_line_item (e : TradeRecord) (exchange_rate : Option ℚ) : LineItem :=
  let purchase := if e.PlanType = "ESPP" then e.PurchasePrice else e.AdjustedCostPerShare
  let sell := if e.PlanType = "ESPP" then e.AdjustedCostPerShare
              else e.AdjustedCostPerShare + e.GainLossPerShare
  let gainloss := if e.PlanType = "ESPP" then sell - purchase else e.GainLossPerShare
  { Order := e.OrderNumber
    Verkaufsdatum := e.SaleDate
    Typ := e.OrderType
    PlanType := e.PlanType
    Anz := e.SharesSold
    Kaufwert := purchase
    GewinnVerlust := gainloss
    Verkaufswert := sell
    Orderwert := sell * e.SharesSold
    KapitalertragUSD := gainloss * e.SharesSold
    KapitalertragEUR :=
      match exchange_rate with
      | some r => if r = 0 then .na else .num (gainloss * e.SharesSold * r)
      | none => .na
    is_selltocover := e.is_selltocover
    Rabatt := if e.PlanType = "ESPP" then some "15%" else none }

/-- The rate-lookup step of `parse_data` (lines 235-239): when `exchange` is
on, format the sale date (`strftime` on `NaT` raises `ValueError`) and call
`get_exchange_trade(date, return_currency="EUR")`.  Returns the rate, the
cache after the step and the number of lookups issued (0 or 1). -/
def rate_step (fetch : Fetcher) (exchange : Bool) (e : TradeRecord)
    (cache : List ApiResponse) :
    Except PyError (Option ℚ × List ApiResponse × Nat) :=
  if exchange then
    match e.SaleDate with
    | none => .error .valueError
    | some d =>
      match get_exchange_trade fetch cache (fmtYMD d) "USD" (some "EUR") with
      | .error er => .error er
      | .ok (.rate r, c2, _) => .ok (r, c2, 1)
      | .ok (.ratesDict _, c2, _) => .ok (none, c2, 1)
  else .ok (none, cache, 0)

/-- One iteration of the `parse_data` loop (lines 214-259). -/
def compute_line (fetch : Fetcher) (exchange : Bool) (e : TradeRecord)
    (cache : List ApiResponse) :
    Except PyError (LineItem × List ApiResponse × Nat) :=
  match rate_step fetch exchange e cache with
  | .error er => .error er
  | .ok (xr, c2, n) => .ok (mk_line_item e xr, c2, n)

/-- The `parse_data` loop over all records, threading the cache and counting
rate lookups. -/
def parse_data_go (fetch : Fetcher) (exchange : Bool) :
    List TradeRecord → List ApiResponse →
    Except PyError (List LineItem × List ApiResponse × Nat)
  | [], c => .ok ([], c, 0)
  | e :: rest, c =>
    match compute_line fetch exchange e c with
    | .error er => .error er
    | .ok (li, c2, n) =>
      match parse_data_go fetch exchange rest c2 with
      | .error er => .error er
      | .ok (lis, c3, m) => .ok (li :: lis, c3, n + m)

/-- `parse_data(data, exchange)` (lines 209-260): empty input short-circuits
to an empty result, otherwise the per-record loop runs. -/
def parse_data (fetch : Fetcher) (data : List TradeRecord) (exchange : Bool)
    (cache : List ApiResponse) :
    Except PyError (List LineItem × List ApiResponse × Nat) :=
  if data.length < 1 then .ok ([], cache, 0)
  else parse_data_go fetch exchange data cache

/-! ### Concrete fixtures used by closed theorems and witnesses -/

/-- A fetcher whose every request returns a non-success status. -/
def failFetch : Fetcher := fun _ _ => .failure

/-- Sample EUR rate used by the fixtures. -/
def eurRate : ℚ := 91 / 100

/-- A response whose own `date` field matches the requested date
`"2023-01-16"`. -/
def eurResp : ApiResponse := { date := some "2023-01-16", ratesField := some [("EUR", eurRate)] }

/-- A fetcher that always answers successfully with `eurResp`. -/
def eurFetch : Fetcher := fun _ _ => .success eurResp

/-- A weekend-style response: the service answers a request for
`"2023-01-15"` (a Sunday) with the previous business day in its `date`
field. -/
def wkndResp : ApiResponse := { date := some "2023-01-13", ratesField := some [("EUR", eurRate)] }

/-- A fetcher that always answers successfully with `wkndResp`. -/
def wkndFetch : Fetcher := fun _ _ => .success wkndResp

/-- A response carrying a zero EUR rate for `"2023-01-16"`. -/
def zeroResp : ApiResponse := { date := some "2023-01-16", ratesField := some [("EUR", 0)] }

/-- A fetcher that always answers successfully with `zeroResp`. -/
def zeroFetch : Fetcher := fun _ _ => .success zeroResp

/-- The spec's RSU example row, post-normalization. -/
def rsuRec : TradeRecord :=
  { OrderNumber := "1", SaleDate := some ⟨2023, 1, 16⟩, OrderType := "Sale",
    PlanType := "RSU", SharesSold := 10, AdjustedCostPerShare := 20,
    GainLossPerShare := 5, PurchasePrice := 0, is_selltocover := false }

/-- The spec's ESPP example row, post-normalization. -/
def esppRec : TradeRecord :=
  { OrderNumber := "1", SaleDate := some ⟨2023, 1, 16⟩, OrderType := "Sale",
    PlanType := "ESPP", SharesSold := 10, AdjustedCostPerShare := 20,
    GainLossPerShare := 5, PurchasePrice := 17, is_selltocover := false }

/-- A record whose `Date Sold` failed to parse (`SaleDate` is `NaT`). -/
def nullDateRec : TradeRecord :=
  { OrderNumber := "1", SaleDate := none, OrderType := "Sale",
    PlanType := "RSU", SharesSold := 10, AdjustedCostPerShare := 20,
    GainLossPerShare := 5, PurchasePrice := 0, is_selltocover := false }

/-! ### Shape lemmas about the computation engine -/

/-- Every line item produced by a successful `compute_line` step is
`mk_line_item` of its record at some (possibly absent) exchange rate. -/
theorem compute_line_shape (fetch : Fetcher) (exchange : Bool) (e : TradeRecord)
    (c : List ApiResponse) (li : LineItem) (c2 : List ApiResponse) (n : Nat)
    (h : compute_line fetch exchange e c = .ok (li, c2, n)) :
    ∃ xr, li = mk_line_item e xr := by
  unfold compute_line at h
  cases hr : rate_step fetch exchange e c with
  | error er => rw [hr] at h; cases h
  | ok v =>
    obtain ⟨xr, cc, m⟩ := v
    rw [hr] at h
    simp only [Except.ok.injEq, Prod.mk.injEq] at h
    exact ⟨xr, h.1.symm⟩

/-- Pointwise shape of a successful `parse_data_go` run: the i-th line item
is `mk_line_item` of the i-th record. -/
theorem parse_data_go_fields (fetch : Fetcher) (exchange : Bool) :
    ∀ (data : List TradeRecord) (c0 : List ApiResponse) (items : List LineItem)
      (c1 : List ApiResponse) (n : Nat),
      parse_data_go fetch exchange data c0 = .ok (items, c1, n) →
      ∀ (i : Nat) (e : TradeRecord) (li : LineItem),
        data[i]? = some e → items[i]? = some li → ∃ xr, li = mk_line_item e xr := by
  intro data
  induction data with
  | nil => intro c0 items c1 n h i e li he hli; simp at he
  | cons d rest ih =>
    intro c0 items c1 n h i e li he hli
    unfold parse_data_go at h
    cases hc : compute_line fetch exchange d c0 with
    | error er => rw [hc] at h; cases h
    | ok v =>
      obtain ⟨li0, cmid, n0⟩ := v
      rw [hc] at h
      dsimp only at h
      cases hrec : parse_data_go fetch exchange rest cmid with
      | error er => rw [hrec] at h; cases h
      | ok w =>
        obtain ⟨lis, cend, m0⟩ := w
        rw [hrec] at h
        simp only [Except.ok.injEq, Prod.mk.injEq] at h
        obtain ⟨hitems, hc1, hn⟩ := h
        subst hitems
        cases i with
        | zero =>
          simp only [List.getElem?_cons_zero, Option.some.injEq] at he hli
          obtain rfl := he
          obtain rfl := hli
          exact compute_line_shape fetch exchange d c0 li0 cmid n0 hc
        | succ j =>
          simp only [List.getElem?_cons_succ] at he hli
          exact ih cmid lis cend m0 hrec j e li he hli

/-- Pointwise shape of a successful `parse_data` run. -/
theorem parse_data_fields (fetch : Fetcher) (exchange : Bool)
    (data : List TradeRecord) (c0 : List ApiResponse) (items : List LineItem)
    (c1 : List ApiResponse) (n : Nat)
    (h : parse_data fetch data exchange c0 = .ok (items, c1, n))
    (i : Nat) (e : TradeRecord) (li : LineItem)
    (he : data[i]? = some e) (hli : items[i]? = some li) :
    ∃ xr, li = mk_line_item e xr := by
  unfold parse_data at h
  by_cases hlen : data.length < 1
  · have hnil : data = [] := List.length_eq_zero.mp (by omega)
    subst hnil
    simp at he
  · rw [if_neg hlen] at h
    exact parse_data_go_fields fetch exchange data c0 items c1 n h i e li he hli

/-- With conversion off, the loop is the pure per-record map: no lookup is
issued and the cache is untouched. -/
theorem parse_data_go_noexchange (fetch : Fetcher) :
    ∀ (data : List TradeRecord) (c : List ApiResponse),
      parse_data_go fetch false data c =
        .ok (data.map (fun e => mk_line_item e none), c, 0) := by
  intro data
  induction data with
  | nil => intro c; rfl
  | cons d rest ih =>
    intro c
    have h1 : parse_data_go fetch false (d :: rest) c =
        match parse_data_go fetch false rest c with
        | .error er => .error er
        | .ok (lis, cend, m) => .ok (mk_line_item d none :: lis, cend, 0 + m) := rfl
    rw [h1, ih c]
    rfl

/-! ### Claims C1 and C2: per-record plan-type policy -/

/-- C1: for every input record with `planType = "ESPP"`, the produced line
item has `purchaseValuePerShare = purchasePrice` (`Kaufwert`),
`saleValuePerShare = adjustedCostPerShare` (`Verkaufswert`),
`gainLossPerShare = saleValuePerShare - purchaseValuePerShare`
(`GewinnVerlust`, recomputed independently of the input gain/loss field), and
a discount annotation `"15%"` (`Rabatt`). -/
theorem c1_espp_fields (fetch : Fetcher) (data : List TradeRecord) (exchange : Bool)
    (c0 : List ApiResponse) (items : List LineItem) (c1 : List ApiResponse) (n : Nat)
    (h : parse_data fetch data exchange c0 = .ok (items, c1, n))
    (i : Nat) (e : TradeRecord) (li : LineItem)
    (he : data[i]? = some e) (hli : items[i]? = some li)
    (hplan : e.PlanType = "ESPP") :
    li.Kaufwert = e.PurchasePrice ∧
    li.Verkaufswert = e.AdjustedCostPerShare ∧
    li.GewinnVerlust = li.Verkaufswert - li.Kaufwert ∧
    li.Rabatt = some "15%" := by
  obtain ⟨xr, rfl⟩ := parse_data_fields fetch exchange data c0 items c1 n h i e li he hli
  refine ⟨?_, ?_, ?_, ?_⟩ <;> simp [mk_line_item, hplan]

/-- C1 witness: the ESPP example row evaluated through `parse_data`. -/
theorem c1_witness :
    (mk_line_item esppRec none).Kaufwert = esppRec.PurchasePrice ∧
    (mk_line_item esppRec none).Verkaufswert = esppRec.AdjustedCostPerShare ∧
    (mk_line_item esppRec none).GewinnVerlust =
      (mk_line_item esppRec none).Verkaufswert - (mk_line_item esppRec none).Kaufwert ∧
    (mk_line_item esppRec none).Rabatt = some "15%" :=
  c1_espp_fields failFetch [esppRec] false [] [mk_line_item esppRec none] [] 0 rfl 0
    esppRec (mk_line_item esppRec none) rfl rfl rfl

/-- C2: for every non-ESPP record the produced line item has
`purchaseValuePerShare = adjustedCostPerShare`,
`saleValuePerShare = adjustedCostPerShare + gainLossPerShare`, the input
`gainLossPerShare` passed through, and — for records of either plan type —
`orderValue = saleValuePerShare * sharesSold` and
`gainUSD = gainLossPerShare * sharesSold`. -/
theorem c2_nonespp_and_derived (fetch : Fetcher) (data : List TradeRecord) (exchange : Bool)
    (c0 : List ApiResponse) (items : List LineItem) (c1 : List ApiResponse) (n : Nat)
    (h : parse_data fetch data exchange c0 = .ok (items, c1, n))
    (i : Nat) (e : TradeRecord) (li : LineItem)
    (he : data[i]? = some e) (hli : items[i]? = some li) :
    (e.PlanType ≠ "ESPP" →
      li.Kaufwert = e.AdjustedCostPerShare ∧
      li.Verkaufswert = e.AdjustedCostPerShare + e.GainLossPerShare ∧
      li.GewinnVerlust = e.GainLossPerShare) ∧
    li.Orderwert = li.Verkaufswert * e.SharesSold ∧
    li.KapitalertragUSD = li.GewinnVerlust * e.SharesSold := by
  obtain ⟨xr, rfl⟩ := parse_data_fields fetch exchange data c0 items c1 n h i e li he hli
  refine ⟨fun hne => ⟨?_, ?_, ?_⟩, ?_, ?_⟩
  · simp [mk_line_item, hne]
  · simp [mk_line_item, hne]
  · simp [mk_line_item, hne]
  · simp [mk_line_item]
  · simp [mk_line_item]

/-- C2 witness: the RSU example row evaluated through `parse_data`. -/
theorem c2_witness :
    ((rsuRec.PlanType ≠ "ESPP" →
      (mk_line_item rsuRec none).Kaufwert = rsuRec.AdjustedCostPerShare ∧
      (mk_line_item rsuRec none).Verkaufswert =
        rsuRec.AdjustedCostPerShare + rsuRec.GainLossPerShare ∧
      (mk_line_item rsuRec none).GewinnVerlust = rsuRec.GainLossPerShare) ∧
    (mk_line_item rsuRec none).Orderwert =
      (mk_line_item rsuRec none).Verkaufswert * rsuRec.SharesSold ∧
    (mk_line_item rsuRec none).KapitalertragUSD =
      (mk_line_item rsuRec none).GewinnVerlust * rsuRec.SharesSold) :=
  c2_nonespp_and_derived failFetch [rsuRec] false [] [mk_line_item rsuRec none] [] 0 rfl 0
    rsuRec (mk_line_item rsuRec none) rfl rfl

/-! ### Claim C3: fetch failure behaviour of the rate lookup -/

/-- C3 (code bug): when the external fetch fails (non-success status) on a
cache miss and a target currency was requested — as every caller in the
source does — the lookup does not return `null`: `rates` is still `None` and
the source evaluates `None.get(return_currency)`, raising `AttributeError`
to the caller.  With no target currency requested the same situation does
return `None`, which is the behaviour the claim describes. -/
theorem c3_fetch_failure_raises :
    get_exchange_trade failFetch [] "2023-01-15" "USD" (some "EUR") =
      .error PyError.attrError ∧
    get_exchange_trade failFetch [] "2023-01-15" "USD" none =
      .ok (.ratesDict none, [], true) := by
  exact ⟨rfl, rfl⟩

/-! ### Claim C4: idempotence of the exchange-rate cache -/

/-- C4 counterexample: the cache is keyed on the *response's* own `date`
field (`EXCHANGE_CACHE` stores the decoded body and the scan compares
`dict_elem.get("date")` with the requested date).  When the service answers a
request for `"2023-01-15"` with `date = "2023-01-13"` in the body — as the
real rate service does for weekends — the first successful lookup caches an
entry that the second lookup for the same requested date cannot find, so a
second fetch is issued (both calls report `true` as their fetch flag),
contradicting the claim's "at most one fetch call in total". -/
theorem c4_counterexample :
    get_exchange_trade wkndFetch [] "2023-01-15" "USD" (some "EUR") =
      .ok (.rate (some eurRate), [wkndResp], true) ∧
    get_exchange_trade wkndFetch [wkndResp] "2023-01-15" "USD" (some "EUR") =
      .ok (.rate (some eurRate), [wkndResp, wkndResp], true) := by
  exact ⟨rfl, rfl⟩

/-- C4 amended: provided the successful response's own `date` field equals
the requested date string, two successive lookups for that date issue exactly
one fetch in total: the first misses, fetches and caches the whole response;
the second is served from the cache (fetch flag `false`) and returns the
rate for its target currency — identical to the first for the same target,
and any other target on that date is also answered from the same cached
response. -/
theorem c4_amended (fetch : Fetcher) (c0 : List ApiResponse) (d base t1 t2 : String)
    (resp : ApiResponse) (m : RatesMap)
    (hmiss : cache_lookup c0 d = none)
    (hfetch : fetch d base = .success resp)
    (hrates : resp.ratesField = some m)
    (hdate : resp.date = some d)
    (ht1 : t1 ≠ "") (ht2 : t2 ≠ "") :
    get_exchange_trade fetch c0 d base (some t1) =
      .ok (.rate (m.lookup t1), c0 ++ [resp], true) ∧
    get_exchange_trade fetch (c0 ++ [resp]) d base (some t2) =
      .ok (.rate (m.lookup t2), c0 ++ [resp], false) := by
  have hlook : cache_lookup (c0 ++ [resp]) d = some m := by
    unfold cache_lookup at hmiss ⊢
    rw [List.foldl_append]
    simp only [List.foldl_cons, List.foldl_nil, hmiss, hdate, if_pos rfl]
    exact hrates
  constructor
  · unfold get_exchange_trade
    rw [hmiss]
    dsimp only
    rw [hfetch]
    dsimp only
    rw [hrates]
    dsimp only
    simp [ht1]
  · unfold get_exchange_trade
    rw [hlook]
    dsimp only
    simp [ht2]

/-- C4 witness: a response dated like its request, looked up twice, the
second time for a different target currency. -/
theorem c4_witness :
    (get_exchange_trade eurFetch [] "2023-01-16" "USD" (some "EUR") =
      .ok (.rate (List.lookup "EUR" [("EUR", eurRate)]), [] ++ [eurResp], true) ∧
    get_exchange_trade eurFetch ([] ++ [eurResp]) "2023-01-16" "USD" (some "GBP") =
      .ok (.rate (List.lookup "GBP" [("EUR", eurRate)]), [] ++ [eurResp], false)) :=
  c4_amended eurFetch [] "2023-01-16" "USD" "EUR" "GBP" eurResp [("EUR", eurRate)]
    rfl rfl rfl rfl (by decide) (by decide)

/-! ### Claim C5: records with a null sale date -/

/-- C5 (code bug): with conversion on, a record whose `SaleDate` is null does
not yield a line item with an `"n/a"` conversion — the source calls
`entry.get("SaleDate").strftime(...)` unconditionally, and `strftime` on
`NaT` raises `ValueError`, aborting the whole batch.  With conversion off the
same record does produce a line item carrying the `"n/a"` sentinel, as the
claim describes. -/
theorem c5_null_saledate_raises :
    parse_data failFetch [nullDateRec] true [] = .error PyError.valueError ∧
    parse_data failFetch [nullDateRec] false [] =
      .ok ([mk_line_item nullDateRec none], [], 0) ∧
    (mk_line_item nullDateRec none).KapitalertragEUR = NumNA.na := by
  exact ⟨rfl, rfl, rfl⟩

/-! ### Claim C6: conversion flag and rate lookup determine `gainReportingCurrency` -/

/-- C6 counterexample: when conversion is on and the lookup finds the rate
`0` for the record's sale date, the claim requires
`gainReportingCurrency = gainUSD * 0 = 0`; but the source guards the
computation with `if exchange_rate:` (Python truthiness), so a found rate of
`0` produces the `"n/a"` sentinel instead. -/
theorem c6_counterexample :
    parse_data zeroFetch [rsuRec] true [] =
      .ok ([mk_line_item rsuRec (some 0)], [zeroResp], 1) ∧
    (mk_line_item rsuRec (some 0)).KapitalertragEUR = NumNA.na ∧
    NumNA.na ≠ NumNA.num ((mk_line_item rsuRec (some 0)).KapitalertragUSD * 0) := by
  refine ⟨rfl, rfl, by decide⟩

/-- C6 amended: `gainReportingCurrency` is determined by the `convert` flag
and the rate lookup.  When `convert` is false, every produced line item has
the `"n/a"` sentinel, no rate lookup is issued and the cache is untouched.
When `convert` is true and the lookup for the record's sale date (formatted
`YYYY-MM-DD`, target `"EUR"`) finds a *nonzero* rate,
`gainReportingCurrency = gainUSD * rate`; a found rate of `0` is treated
like an absent rate (Python truthiness) and yields `"n/a"`. -/
theorem c6_conversion :
    (∀ (fetch : Fetcher) (data : List TradeRecord) (c0 : List ApiResponse)
       (items : List LineItem) (c1 : List ApiResponse) (n : Nat),
       parse_data fetch data false c0 = .ok (items, c1, n) →
       n = 0 ∧ c1 = c0 ∧ ∀ li ∈ items, li.KapitalertragEUR = NumNA.na) ∧
    (∀ (fetch : Fetcher) (e : TradeRecord) (c : List ApiResponse) (d : Date) (r : ℚ)
       (c2 : List ApiResponse) (f : Bool),
       e.SaleDate = some d →
       get_exchange_trade fetch c (fmtYMD d) "USD" (some "EUR") =
         .ok (.rate (some r), c2, f) →
       r ≠ 0 →
       compute_line fetch true e c = .ok (mk_line_item e (some r), c2, 1) ∧
       (mk_line_item e (some r)).KapitalertragEUR =
         .num ((mk_line_item e (some r)).KapitalertragUSD * r)) := by
  constructor
  · intro fetch data c0 items c1 n h
    unfold parse_data at h
    by_cases hlen : data.length < 1
    · rw [if_pos hlen] at h
      simp only [Except.ok.injEq, Prod.mk.injEq] at h
      obtain ⟨hitems, hc, hn⟩ := h
      refine ⟨hn.symm, hc.symm, ?_⟩
      intro li hli
      rw [← hitems] at hli
      simp at hli
    · rw [if_neg hlen, parse_data_go_noexchange fetch data c0] at h
      simp only [Except.ok.injEq, Prod.mk.injEq] at h
      obtain ⟨hitems, hc, hn⟩ := h
      refine ⟨hn.symm, hc.symm, ?_⟩
      intro li hli
      rw [← hitems] at hli
      simp only [List.mem_map] at hli
      obtain ⟨e, _, rfl⟩ := hli
      rfl
  · intro fetch e c d r c2 f hsd hget hr0
    have hrs0 : rate_step fetch true e c =
        match get_exchange_trade fetch c (fmtYMD d) "USD" (some "EUR") with
        | .error er => .error er
        | .ok (.rate r, c2, _) => .ok (r, c2, 1)
        | .ok (.ratesDict _, c2, _) => .ok (none, c2, 1) := by
      unfold rate_step
      rw [hsd]
      rfl
    have hrs : rate_step fetch true e c = .ok (some r, c2, 1) := by
      rw [hrs0, hget]
    have hcl : compute_line fetch true e c = .ok (mk_line_item e (some r), c2, 1) := by
      unfold compute_line
      rw [hrs]
    refine ⟨hcl, ?_⟩
    simp [mk_line_item, hr0]

/-- C6 witness: conversion off on the RSU row, and conversion on with a
nonzero rate found for its sale date. -/
theorem c6_witness :
    (0 = 0 ∧ ([] : List ApiResponse) = [] ∧
      ∀ li ∈ [mk_line_item rsuRec none], li.KapitalertragEUR = NumNA.na) ∧
    (compute_line eurFetch true rsuRec [] =
      .ok (mk_line_item rsuRec (some eurRate), [eurResp], 1) ∧
     (mk_line_item rsuRec (some eurRate)).KapitalertragEUR =
       .num ((mk_line_item rsuRec (some eurRate)).KapitalertragUSD * eurRate)) :=
  ⟨c6_conversion.1 failFetch [rsuRec] [] [mk_line_item rsuRec none] [] 0 rfl,
   c6_conversion.2 eurFetch rsuRec [] ⟨2023, 1, 16⟩ eurRate [eurResp] true rfl rfl
     (by norm_num [eurRate])⟩

/-! ### Report grouper/formatter (`generate_pretty_table_with_hierarchy`)

The formatter works on arbitrary dictionaries, so here records are
association lists of string keys to dynamic values.  `Value.num` covers both
Python `int` and `float` (the source treats both as numeric in totals; the
rendering difference between `str(int)` and the locale formatter is a detail
of the external number-formatting collaborator and is conflated here). -/

/-- A dynamic dictionary value. -/
inductive Value where
  | num (q : ℚ)
  | str (s : String)
  | date (d : Date)
  | bool (b : Bool)
deriving DecidableEq, Repr

/-- A Python dictionary with string keys (insertion-ordered, unique keys). -/
abbrev Rec := List (String × Value)

/-- `d.get(k)`: value of the first matching key, if any. -/
def recGet (r : Rec) (k : String) : Option Value :=
  (r.find? (fun p => p.1 == k)).map Prod.snd

/-- `d.get(k, v)`: lookup with a default. -/
def recGetD (r : Rec) (k : String) (v : Value) : Value :=
  (recGet r k).getD v

/-- `d[k] = v` for an existing key: replace the value, keep the key order. -/
def recSet (r : Rec) (k : String) (v : Value) : Rec :=
  r.map (fun p => if p.1 = k then (p.1, v) else p)

/-- Python `str()` of a dynamic value (`str(Timestamp)` renders as
`YYYY-MM-DD HH:MM:SS`). -/
def pyStr : Value → String
  | .num q => if q.den = 1 then toString q.num else toString q
  | .str s => s
  | .date d => fmtYMD d ++ " 00:00:00"
  | .bool b => if b then "True" else "False"

/-- The numeric reading used by the totals row: Python
`x if isinstance(x, (int, float)) else 0`, where `bool` is an `int`
subclass. -/
def toNum : Value → ℚ
  | .num q => q
  | .bool b => if b then 1 else 0
  | _ => 0

/-- Group the reversed digit list in threes, used by the locale formatter. -/
def groupRev : Nat → List Char → List Char
  | _, [] => []
  | 0, c :: rest => '.' :: c :: groupRev 2 rest
  | Nat.succ k, c :: rest => c :: groupRev k rest

/-- German thousands grouping of a natural number (`1234` to `"1.234"`). -/
def germanGroup (n : Nat) : String :=
  String.mk ((groupRev 3 (toString n).data.reverse).reverse)

/-- Model of `locale.currency(value, symbol=False, grouping=True)` under the
`de_DE` locale: two decimals, comma decimal separator, dotted grouping. -/
def germanFmt (q : ℚ) : String :=
  let cents : Int := round (q * 100)
  (if cents < 0 then "-" else "") ++ germanGroup (cents.natAbs / 100) ++ "," ++
    pad2 (cents.natAbs % 100)

/-- `format_value` (lines 37-41): floats go through the locale formatter,
everything else through `str()`. -/
def format_value : Value → String
  | .num q => germanFmt q
  | v => pyStr v

/-- `exclude_total`'s default value (lines 113-119). -/
def default_exclude_total : List String :=
  ["Gewinn/Verlust", "Order", "Verkaufsdatum", "Rabatt (inkl.)", "Type"]

/-- Grouping structure: years in first-seen order, and per year the plan
types in first-seen order, each with its records in input order (the nested
insertion-ordered dicts of lines 130-149). -/
abbrev Groups := List (Int × List (Value × List Rec))

/-- Append a record to its plan-type bucket (first-seen order). -/
def insertPlan : List (Value × List Rec) → Value → Rec → List (Value × List Rec)
  | [], p, e => [(p, [e])]
  | (p0, es) :: rest, p, e =>
    if p0 = p then (p0, es ++ [e]) :: rest else (p0, es) :: insertPlan rest p e

/-- Append a record to its year/plan-type bucket (first-seen order). -/
def insertGroup : Groups → Int → Value → Rec → Groups
  | [], y, p, e => [(y, [(p, [e])])]
  | (y0, ps) :: rest, y, p, e =>
    if y0 = y then (y0, insertPlan ps p e) :: rest
    else (y0, ps) :: insertGroup rest y p e

/-- The year-filter guard: `if filter_year:` then compare
`year != int(filter_year)` — a falsy `filter_year` (absent, or 0) disables
filtering entirely. -/
def passes (fy : Option Int) (year : Int) : Bool :=
  match fy with
  | none => true
  | some y => if y = 0 then true else decide (year = y)

/-- One iteration of the grouping loop (lines 132-141): read the entry's
structured sale date (`KeyError` when absent, `AttributeError` when `.year`
is taken of a non-date), apply the year filter, replace the date with its
`DD.MM.YYYY` display string in the entry itself, and read the plan type.
Returns `none` when the entry is skipped by the filter, otherwise the group
keys together with the mutated entry. -/
def entry_step (fy : Option Int) (i : Nat) (e : Rec) :
    Except PyError (Option (Int × Value × Rec)) :=
  match recGet e "Verkaufsdatum" with
  | none => .error (.keyError i "Verkaufsdatum")
  | some (.date d) =>
    if passes fy (d.year : Int) then
      match recGet (recSet e "Verkaufsdatum" (.str (fmtDMY d))) "PlanType" with
      | none => .error (.keyError i "PlanType")
      | some p =>
        .ok (some ((d.year : Int), p, recSet e "Verkaufsdatum" (.str (fmtDMY d))))
    else .ok none
  | some _ => .error .attrError

/-- The grouping loop over all entries, carrying the entry index, and
returning both the groups and the entry list as left behind by the in-place
date mutations. -/
def group_entries (fy : Option Int) :
    Nat → List Rec → Groups → Except PyError (Groups × List Rec)
  | _, [], gs => .ok (gs, [])
  | i, e :: rest, gs =>
    match entry_step fy i e with
    | .error er => .error er
    | .ok none =>
      match group_entries fy (i + 1) rest gs with
      | .error er => .error er
      | .ok (gs2, rest2) => .ok (gs2, e :: rest2)
    | .ok (some (y, p, e2)) =>
      match group_entries fy (i + 1) rest (insertGroup gs y p e2) with
      | .error er => .error er
      | .ok (gs2, rest2) => .ok (gs2, e2 :: rest2)

/-- A rendered table: its column headers and its rows of cell strings (the
actual text layout is the external table-rendering collaborator, which
stringifies each cell). -/
structure Table where
  field_names : List String
  rows : List (List String)
deriving DecidableEq, Repr

/-- One data row (lines 171-175): raw `year` and `plan_type` cells followed
by the formatted values of the remaining columns (missing keys default to
`""`). -/
def data_row (year : Int) (plan : Value) (fns : List String) (r : Rec) :
    List String :=
  [toString year, pyStr plan] ++
    (fns.drop 2).map (fun f => format_value (recGetD r f (.str "")))

/-- The per-column sum of the totals row: raw record values, non-numeric
counted as 0, missing keys defaulting to 0 (lines 185-195). -/
def col_sum (records : List Rec) (f : String) : ℚ :=
  records.foldl (fun a r => a + toNum (recGetD r f (.num 0))) 0

/-- The totals row (lines 179-202): `"Total"` in the Year column, blank
PlanType, then per column either the formatted raw sum or a blank when the
column is in the total-exclusion set. -/
def total_row (records : List Rec) (fns : List String) (et : List String) :
    List String :=
  ["Total", ""] ++
    (fns.drop 2).map (fun f =>
      if f ∈ et then "" else format_value (Value.num (col_sum records f)))

/-- Build one table for a (year, plan type) group (lines 153-204): columns
are `Year`, `PlanType` and the first record's keys minus `Year`/`PlanType`
and the excluded fields; then the data rows, a dashed separator row, and the
totals row. -/
def build_table (year : Int) (plan : Value) (records : List Rec)
    (eff et : List String) : Table :=
  let fns := ["Year", "PlanType"] ++
    ((records.headD []).map Prod.fst).filter
      (fun k => !((["Year", "PlanType"] ++ eff).contains k))
  { field_names := fns
    rows := (records.map (data_row year plan fns) ++ [fns.map (fun _ => "----")]) ++
      [total_row records fns et] }

/-- `generate_pretty_table_with_hierarchy(data, filter_year, exclude_fields,
exclude_total)` (lines 109-206).  The caller-supplied `exclude_fields`
(default `["PurchasePrice"]`) is extended with the hardwired
`["is_selltocover"]`; the result is one table per (year, plan type) group in
first-seen order, paired with the caller's entry list as mutated by the
grouping loop. -/
def generate_pretty_table_with_hierarchy (data : List Rec) (filter_year : Option Int)
    (exclude_fields : List String) (exclude_total : List String) :
    Except PyError (List Table × List Rec) :=
  match group_entries filter_year 0 data [] with
  | .error er => .error er
  | .ok (gs, data2) =>
    .ok ((gs.map (fun yp => yp.2.map
      (fun pr => build_table yp.1 pr.1 pr.2 (exclude_fields ++ ["is_selltocover"])
        exclude_total))).flatten, data2)

/-! ### Formatter fixtures -/

/-- A one-record input for the formatter. -/
def wRec : Rec :=
  [("Verkaufsdatum", Value.date ⟨2023, 1, 15⟩), ("PlanType", Value.str "RSU"),
   ("Orderwert", Value.num 250)]

/-- `wRec` after the grouping loop replaced its date with the display
string. -/
def wRec2 : Rec :=
  [("Verkaufsdatum", Value.str (fmtDMY ⟨2023, 1, 15⟩)), ("PlanType", Value.str "RSU"),
   ("Orderwert", Value.num 250)]

/-- The single table rendered from `[wRec]` with the default exclusions. -/
def wTable : Table :=
  build_table 2023 (Value.str "RSU") [wRec2] (["PurchasePrice"] ++ ["is_selltocover"])
    default_exclude_total

/-- A record carrying a `PurchasePrice` key, for the exclusion-set
counterexample. -/
def cRec : Rec :=
  [("Verkaufsdatum", Value.date ⟨2023, 1, 15⟩), ("PlanType", Value.str "RSU"),
   ("PurchasePrice", Value.num 17)]

/-! ### Shape lemmas about the formatter -/

/-- Every rendered table of a successful run is `build_table` of some group,
with the effective exclusion set `exclude_fields ++ ["is_selltocover"]`. -/
theorem generate_mem (data : List Rec) (fy : Option Int) (E ET : List String)
    (ts : List Table) (d2 : List Rec)
    (h : generate_pretty_table_with_hierarchy data fy E ET = .ok (ts, d2))
    (t : Table) (ht : t ∈ ts) :
    ∃ y p recs, t = build_table y p recs (E ++ ["is_selltocover"]) ET := by
  unfold generate_pretty_table_with_hierarchy at h
  cases hg : group_entries fy 0 data [] with
  | error er => rw [hg] at h; cases h
  | ok v =>
    obtain ⟨gs, dd⟩ := v
    rw [hg] at h
    dsimp only at h
    simp only [Except.ok.injEq, Prod.mk.injEq] at h
    obtain ⟨hts, _⟩ := h
    subst hts
    simp only [List.mem_flatten, List.mem_map] at ht
    obtain ⟨l, ⟨yp, hyp, rfl⟩, htl⟩ := ht
    simp only [List.mem_map] at htl
    obtain ⟨pr, hpr, rfl⟩ := htl
    exact ⟨yp.1, pr.1, pr.2, rfl⟩

/-- The cell of the totals row under column `f` (position `2 + j`, after the
Year and PlanType cells): blank when `f` is total-excluded, otherwise the
formatted raw column sum. -/
theorem total_row_cell (records : List Rec) (fns et : List String)
    (j : Nat) (f : String) (hf : (fns.drop 2)[j]? = some f) :
    (total_row records fns et)[2 + j]? =
      some (if f ∈ et then "" else format_value (Value.num (col_sum records f))) := by
  unfold total_row
  have h2 : (["Total", ""] : List String).length ≤ 2 + j := by simp
  rw [List.getElem?_append_right h2]
  simp only [List.getElem?_drop] at hf
  simp [hf]

/-! ### Claim C7: totals-row correctness -/

/-- C7: every rendered group table ends in a totals row whose cell for a
column not in the total-exclusion set is the formatted sum, over the group's
records, of that column's raw (pre-formatting) values with non-numeric values
counted as 0; columns in the total-exclusion set get a blank string. -/
theorem c7_total_correctness (data : List Rec) (fy : Option Int) (E ET : List String)
    (ts : List Table) (d2 : List Rec)
    (h : generate_pretty_table_with_hierarchy data fy E ET = .ok (ts, d2))
    (t : Table) (ht : t ∈ ts) :
    ∃ y p recs, t = build_table y p recs (E ++ ["is_selltocover"]) ET ∧
      t.rows.getLast? = some (total_row recs t.field_names ET) ∧
      ∀ j f, (t.field_names.drop 2)[j]? = some f →
        (total_row recs t.field_names ET)[2 + j]? =
          some (if f ∈ ET then "" else format_value (Value.num (col_sum recs f))) := by
  obtain ⟨y, p, recs, rfl⟩ := generate_mem data fy E ET ts d2 h t ht
  refine ⟨y, p, recs, rfl, ?_, ?_⟩
  · simp [build_table, List.getLast?_concat]
  · intro j f hf
    exact total_row_cell recs _ ET j f hf

/-- C7 witness: the one-group, one-record fixture. -/
theorem c7_witness :
    ∃ y p recs,
      wTable = build_table y p recs (["PurchasePrice"] ++ ["is_selltocover"])
        default_exclude_total ∧
      wTable.rows.getLast? = some (total_row recs wTable.field_names default_exclude_total) ∧
      ∀ j f, (wTable.field_names.drop 2)[j]? = some f →
        (total_row recs wTable.field_names default_exclude_total)[2 + j]? =
          some (if f ∈ default_exclude_total then ""
                else format_value (Value.num (col_sum recs f))) :=
  c7_total_correctness [wRec] none ["PurchasePrice"] default_exclude_total
    [wTable] [wRec2] rfl wTable (by simp)

/-! ### Claim C9: effective exclusion set and column list -/

/-- C9 counterexample: a caller-supplied extra-exclusion list replaces the
`["PurchasePrice"]` default instead of extending it.  With `E = []` the
rendered table keeps a `PurchasePrice` column (first equation), so the
effective exclusion set is not `{PurchasePrice, is_selltocover} ∪ E` as the
claim states; only the default call (second equation) excludes it. -/
theorem c9_counterexample :
    (generate_pretty_table_with_hierarchy [cRec] none [] default_exclude_total).toOption.map
        (fun out => out.1.map Table.field_names) =
      some [["Year", "PlanType", "Verkaufsdatum", "PurchasePrice"]] ∧
    (generate_pretty_table_with_hierarchy [cRec] none ["PurchasePrice"]
        default_exclude_total).toOption.map
        (fun out => out.1.map Table.field_names) =
      some [["Year", "PlanType", "Verkaufsdatum"]] := by
  exact ⟨rfl, rfl⟩

/-- C9 amended: for a caller-supplied extra-exclusion list `E`, the effective
exclusion set is `E ++ ["is_selltocover"]` — `E` replaces the
`["PurchasePrice"]` default rather than extending it (the default applies
only when the caller supplies nothing) — and each table's column list is
`["Year", "PlanType"]` followed by the group's first record's keys minus
`Year`, `PlanType` and the effective exclusion set. -/
theorem c9_columns (data : List Rec) (fy : Option Int) (E ET : List String)
    (ts : List Table) (d2 : List Rec)
    (h : generate_pretty_table_with_hierarchy data fy E ET = .ok (ts, d2))
    (t : Table) (ht : t ∈ ts) :
    ∃ y p recs, t = build_table y p recs (E ++ ["is_selltocover"]) ET ∧
      t.field_names = ["Year", "PlanType"] ++
        ((recs.headD []).map Prod.fst).filter
          (fun k => !((["Year", "PlanType"] ++ (E ++ ["is_selltocover"])).contains k)) := by
  obtain ⟨y, p, recs, rfl⟩ := generate_mem data fy E ET ts d2 h t ht
  exact ⟨y, p, recs, rfl, rfl⟩

/-- C9 witness: the fixture table's columns computed from its group's first
record. -/
theorem c9_witness :
    ∃ y p recs,
      wTable = build_table y p recs (["PurchasePrice"] ++ ["is_selltocover"])
        default_exclude_total ∧
      wTable.field_names = ["Year", "PlanType"] ++
        ((recs.headD []).map Prod.fst).filter
          (fun k => !((["Year", "PlanType"] ++
            (["PurchasePrice"] ++ ["is_selltocover"])).contains k)) :=
  c9_columns [wRec] none ["PurchasePrice"] default_exclude_total
    [wTable] [wRec2] rfl wTable (by simp)

/-! ### Claim C10: in-place date mutation by the grouping loop -/

/-- Relating a successful grouping run to the caller's list: an entry with a
structured date that passes the year filter is left behind with its
`Verkaufsdatum` overwritten by the `DD.MM.YYYY` display string; an entry
excluded by the filter is left untouched. -/
theorem entry_step_spec (fy : Option Int) (i : Nat) (e : Rec)
    (r : Option (Int × Value × Rec)) (dt : Date)
    (h : entry_step fy i e = .ok r)
    (hd : recGet e "Verkaufsdatum" = some (.date dt)) :
    (passes fy (dt.year : Int) = true →
      ∃ p, r = some ((dt.year : Int), p,
        recSet e "Verkaufsdatum" (.str (fmtDMY dt)))) ∧
    (passes fy (dt.year : Int) = false → r = none) := by
  unfold entry_step at h
  rw [hd] at h
  dsimp only at h
  by_cases hp : passes fy (dt.year : Int) = true
  · rw [if_pos hp] at h
    constructor
    · intro _
      cases hq : recGet (recSet e "Verkaufsdatum" (.str (fmtDMY dt))) "PlanType" with
      | none => rw [hq] at h; cases h
      | some p =>
        rw [hq] at h
        simp only [Except.ok.injEq] at h
        exact ⟨p, h.symm⟩
    · intro hf
      rw [hp] at hf
      cases hf
  · rw [if_neg hp] at h
    simp only [Except.ok.injEq] at h
    constructor
    · intro ht
      exact absurd ht hp
    · intro _
      exact h.symm

/-- Frame property of the grouping loop: the left-behind entry list has the
input's length, entries passing the year filter carry the display-string
date, and filtered-out entries are unchanged. -/
theorem group_entries_frame (fy : Option Int) :
    ∀ (data : List Rec) (i : Nat) (gs gs2 : Groups) (d2 : List Rec),
      group_entries fy i data gs = .ok (gs2, d2) →
      d2.length = data.length ∧
      ∀ (j : Nat) (e : Rec) (dt : Date),
        data[j]? = some e → recGet e "Verkaufsdatum" = some (.date dt) →
        (passes fy (dt.year : Int) = true →
          d2[j]? = some (recSet e "Verkaufsdatum" (.str (fmtDMY dt)))) ∧
        (passes fy (dt.year : Int) = false → d2[j]? = some e) := by
  intro data
  induction data with
  | nil =>
    intro i gs gs2 d2 h
    simp only [group_entries, Except.ok.injEq, Prod.mk.injEq] at h
    obtain ⟨-, hd2⟩ := h
    subst hd2
    exact ⟨rfl, fun j e dt hj _ => by simp at hj⟩
  | cons e0 rest ih =>
    intro i gs gs2 d2 h
    unfold group_entries at h
    cases hs : entry_step fy i e0 with
    | error er => rw [hs] at h; cases h
    | ok r =>
      rw [hs] at h
      cases r with
      | none =>
        dsimp only at h
        cases hrec : group_entries fy (i + 1) rest gs with
        | error er => rw [hrec] at h; cases h
        | ok w =>
          obtain ⟨gsr, restr⟩ := w
          rw [hrec] at h
          simp only [Except.ok.injEq, Prod.mk.injEq] at h
          obtain ⟨-, hd2⟩ := h
          subst hd2
          obtain ⟨ihlen, ihpt⟩ := ih (i + 1) gs gsr restr hrec
          refine ⟨by simp [ihlen], ?_⟩
          intro j e dt hj hdt
          cases j with
          | zero =>
            simp only [List.getElem?_cons_zero, Option.some.injEq] at hj
            obtain rfl := hj
            have hspec := entry_step_spec fy i e0 none dt hs hdt
            constructor
            · intro hp
              obtain ⟨p, hcontra⟩ := hspec.1 hp
              cases hcontra
            · intro _
              simp
          | succ k =>
            simp only [List.getElem?_cons_succ]
            simp only [List.getElem?_cons_succ] at hj
            exact ihpt k e dt hj hdt
      | some ype =>
        obtain ⟨y, p0, e2⟩ := ype
        dsimp only at h
        cases hrec : group_entries fy (i + 1) rest (insertGroup gs y p0 e2) with
        | error er => rw [hrec] at h; cases h
        | ok w =>
          obtain ⟨gsr, restr⟩ := w
          rw [hrec] at h
          simp only [Except.ok.injEq, Prod.mk.injEq] at h
          obtain ⟨-, hd2⟩ := h
          subst hd2
          obtain ⟨ihlen, ihpt⟩ := ih (i + 1) (insertGroup gs y p0 e2) gsr restr hrec
          refine ⟨by simp [ihlen], ?_⟩
          intro j e dt hj hdt
          cases j with
          | zero =>
            simp only [List.getElem?_cons_zero, Option.some.injEq] at hj
            obtain rfl := hj
            have hspec := entry_step_spec fy i e0 (some (y, p0, e2)) dt hs hdt
            constructor
            · intro hp
              obtain ⟨p1, hsome⟩ := hspec.1 hp
              simp only [Option.some.injEq, Prod.mk.injEq] at hsome
              obtain ⟨-, -, he2⟩ := hsome
              simp [he2]
            · intro hf
              have := hspec.2 hf
              cases this
          | succ k =>
            simp only [List.getElem?_cons_succ]
            simp only [List.getElem?_cons_succ] at hj
            exact ihpt k e dt hj hdt

/-- C10: `generate_pretty_table_with_hierarchy` mutates the caller's entry
list: a successful run leaves a list of the same length in which every entry
passing the year filter has its `Verkaufsdatum` overwritten with its
`DD.MM.YYYY` display string, while entries excluded by the filter keep their
original structured date. -/
theorem c10_inplace_date_mutation (data : List Rec) (fy : Option Int) (E ET : List String)
    (ts : List Table) (d2 : List Rec)
    (h : generate_pretty_table_with_hierarchy data fy E ET = .ok (ts, d2))
    (j : Nat) (e : Rec) (dt : Date)
    (he : data[j]? = some e) (hd : recGet e "Verkaufsdatum" = some (.date dt)) :
    d2.length = data.length ∧
    (passes fy (dt.year : Int) = true →
      d2[j]? = some (recSet e "Verkaufsdatum" (Value.str (fmtDMY dt)))) ∧
    (passes fy (dt.year : Int) = false → d2[j]? = some e) := by
  unfold generate_pretty_table_with_hierarchy at h
  cases hg : group_entries fy 0 data [] with
  | error er => rw [hg] at h; cases h
  | ok v =>
    obtain ⟨gs, dd⟩ := v
    rw [hg] at h
    dsimp only at h
    simp only [Except.ok.injEq, Prod.mk.injEq] at h
    obtain ⟨-, hdd⟩ := h
    subst hdd
    obtain ⟨hlen, hpt⟩ := group_entries_frame fy data 0 [] gs dd hg
    exact ⟨hlen, (hpt j e dt he hd).1, (hpt j e dt he hd).2⟩

/-- C10 witness: the fixture run leaves the display-string date behind in
the caller's list. -/
theorem c10_witness :
    ([wRec2] : List Rec).length = ([wRec] : List Rec).length ∧
    (passes none (((⟨2023, 1, 15⟩ : Date).year : Int)) = true →
      ([wRec2] : List Rec)[0]? =
        some (recSet wRec "Verkaufsdatum" (Value.str (fmtDMY ⟨2023, 1, 15⟩)))) ∧
    (passes none (((⟨2023, 1, 15⟩ : Date).year : Int)) = false →
      ([wRec2] : List Rec)[0]? = some wRec) :=
  c10_inplace_date_mutation [wRec] none ["PurchasePrice"] default_exclude_total
    [wTable] [wRec2] rfl 0 wRec ⟨2023, 1, 15⟩ rfl rfl

/-! ### Trade normalizer (`read_csv`, lines 91-104)

Column selection, renaming, numeric coercion and date parsing are performed
by the external CSV/frame library; `RawRow` models a row after those steps
(so `OrderType` is already the `str()` of the raw cell).  The embedded part
is the per-row dictionary construction of the loop, including the
sell-to-cover detection `"STC" in str(row["OrderType"])`. -/

/-- A broker row after the external column/typing steps of `read_csv`. -/
structure RawRow where
  OrderNumber : String
  SaleDate : Option Date
  OrderType : String
  PlanType : String
  SharesSold : ℚ
  AdjustedCostPerShare : ℚ
  GainLossPerShare : ℚ
  PurchasePrice : ℚ
deriving DecidableEq, Repr

/-- Whether the first list is a prefix of the second (character-wise). -/
def listPrefix : List Char → List Char → Bool
  | [], _ => true
  | _ :: _, [] => false
  | a :: as, b :: bs => a == b && listPrefix as bs

/-- Whether `needle` occurs as a contiguous sublist; Python's `in` on
strings. -/
def containsSub (needle : List Char) : List Char → Bool
  | [] => listPrefix needle []
  | c :: rest => listPrefix needle (c :: rest) || containsSub needle rest

/-- Python `sub in s` for strings. -/
def strContains (s sub : String) : Bool := containsSub sub.data s.data

/-- The dictionary built for one row (lines 92-103). -/
def mk_record (row : RawRow) : TradeRecord :=
  { OrderNumber := row.OrderNumber
    SaleDate := row.SaleDate
    OrderType := row.OrderType
    PlanType := row.PlanType
    SharesSold := row.SharesSold
    AdjustedCostPerShare := row.AdjustedCostPerShare
    GainLossPerShare := row.GainLossPerShare
    PurchasePrice := row.PurchasePrice
    is_selltocover := strContains row.OrderType "STC" }

/-- The row loop of `read_csv`: one trade record per row, in row order. -/
def read_csv_records (rows : List RawRow) : List TradeRecord :=
  rows.map mk_record

/-- The spec's sell-to-cover example row. -/
def saleToCoverRow : RawRow :=
  { OrderNumber := "1", SaleDate := some ⟨2023, 1, 15⟩,
    OrderType := "Sale to Cover", PlanType := "RSU", SharesSold := 10,
    AdjustedCostPerShare := 20, GainLossPerShare := 5, PurchasePrice := 0 }

/-- A row whose order-type text actually contains `"STC"`. -/
def stcRow : RawRow :=
  { OrderNumber := "2", SaleDate := some ⟨2023, 1, 15⟩,
    OrderType := "STC", PlanType := "RSU", SharesSold := 10,
    AdjustedCostPerShare := 20, GainLossPerShare := 5, PurchasePrice := 0 }

/-! ### Claim C8: sell-to-cover detection -/

/-- C8 counterexample: the text `"Sale to Cover"` does not contain the
substring `"STC"` (the match is a case-sensitive substring test), so the
claim's example row yields `isSellToCover = false`; a row whose order type
does contain `"STC"` yields `true`. -/
theorem c8_counterexample :
    (mk_record saleToCoverRow).is_selltocover = false ∧
    (mk_record stcRow).is_selltocover = true := by
  exact ⟨rfl, rfl⟩

/-- C8 amended: the normalizer sets `isSellToCover` to the result of the
substring test `"STC" in orderType` for every row — but a raw row whose
order type is `"Sale to Cover"` yields `isSellToCover = false`, since that
text lacks the (case-sensitive) substring `"STC"`. -/
theorem c8_selltocover (rows : List RawRow) (i : Nat) (row : RawRow)
    (rec : TradeRecord)
    (hr : rows[i]? = some row) (hrec : (read_csv_records rows)[i]? = some rec) :
    rec.is_selltocover = strContains row.OrderType "STC" := by
  unfold read_csv_records at hrec
  rw [List.getElem?_map, hr] at hrec
  have hmk : mk_record row = rec := by simpa using hrec
  rw [← hmk]
  rfl

/-- C8 witness: the `"Sale to Cover"` row run through the normalizer. -/
theorem c8_witness :
    (mk_record saleToCoverRow).is_selltocover =
      strContains saleToCoverRow.OrderType "STC" :=
  c8_selltocover [saleToCoverRow] 0 saleToCoverRow (mk_record saleToCoverRow) rfl rfl

end ETrade
